import Mathlib

/-!
Verification of the DeepSquare client (src/client/src/App.jsx) against its
specification.  The client is written in JavaScript over the chess.js
library; here the relevant functions are shallowly embedded as Lean
definitions.  chess.js (the Legal Move Oracle of the spec) is modelled
abstractly: a game carries its PGN/FEN strings, its verbose legal-move list
and its game-over flag, and the PGN/FEN loaders are passed in as functions
(`Option`-valued, `none` standing for a thrown exception).  Server-side
behaviour that is not part of src/ is modelled from the spec; those
definitions say so in their doc comments.
-/

/-- A move input as passed to chess.js `game.move({from, to, promotion})`.
JS field names `from`/`to` are rendered `fromSq`/`toSq` (`from` is a Lean
keyword). -/
structure MoveInput where
  fromSq : String
  toSq : String
  promotion : Option String
deriving DecidableEq, Repr

/-- A verbose legal move as returned by chess.js `game.moves({verbose: true})`:
source square, target square, promotion piece when the move is a promotion,
and SAN text. -/
structure VerboseMove where
  fromSq : String
  toSq : String
  promotion : Option String
  san : String
deriving DecidableEq, Repr

/-- Abstract model of a chess.js `Chess` instance: its PGN and FEN
serialisations, the verbose legal-move list for the current position, and
the game-over flag.  The legal-move list plays the role of the spec's Legal
Move Oracle output. -/
structure ChessGame where
  pgn : String
  fen : String
  legal : List VerboseMove
  gameOver : Bool
deriving DecidableEq, Repr

/-- Model of chess.js move matching: an input designates a verbose legal move when
the squares coincide and, for promotion moves, the promotion piece
coincides. -/
def matchesInput (mv : VerboseMove) (inp : MoveInput) : Bool :=
  mv.fromSq == inp.fromSq && mv.toSq == inp.toSq &&
    (match mv.promotion with
     | none => true
     | some p => inp.promotion == some p)

/-- Model of chess.js `game.move(input)`: look the input up in the legal-move list;
`none` models the null/throw result on an illegal input. -/
def chessMove (g : ChessGame) (inp : MoveInput) : Option VerboseMove :=
  g.legal.find? (fun mv => matchesInput mv inp)

/-- The snapshot taken by `getGameSnapshot` before an optimistic move. -/
structure Snapshot where
  prevPgn : String
  prevFen : String
deriving DecidableEq, Repr

/-- The function `getGameSnapshot(chessGame)` from App.jsx. -/
def getGameSnapshot (g : ChessGame) : Snapshot :=
  { prevPgn := g.pgn, prevFen := g.fen }

/-- The function `createGameFromSnapshot(snapshot)` from App.jsx: rebuild a game from the
PGN when it is non-empty (JS truthiness on a string), else from the FEN.
`loadPgn`/`loadFen` are the chess.js loaders; `none` models a thrown
exception propagating out (there is no try/catch here). -/
def createGameFromSnapshot (loadPgn loadFen : String → Option ChessGame)
    (s : Snapshot) : Option ChessGame :=
  if s.prevPgn ≠ "" then loadPgn s.prevPgn else loadFen s.prevFen

/-- The function `createGameFromServer(gameData)` from App.jsx: prefer the server PGN,
falling back to the FEN when the PGN is absent or fails to parse. -/
def createGameFromServer (loadPgn loadFen : String → Option ChessGame)
    (gameData : Snapshot) : Option ChessGame :=
  if gameData.prevPgn ≠ "" then
    match loadPgn gameData.prevPgn with
    | some g => some g
    | none => loadFen gameData.prevFen
  else loadFen gameData.prevFen

/-- Outcome of the client-side move pipeline `attemptMove`/`executeMove`:
either no network call happens (`ignored` guard exit, `illegal` with the
"Illegal move" error set, `promo` opening the promotion dialog, `blocked`
when `executeMove` bails out before POSTing) or a POST of `uci` built from
the validated move `mv` is issued. -/
inductive AttemptOutcome where
  | ignored
  | illegal
  | promo (sourceSquare targetSquare : String)
  | blocked
  | posted (uci : String) (mv : VerboseMove)
deriving DecidableEq, Repr

/-- The function `executeMove(sourceSquare, targetSquare, promotion)` from App.jsx, up to
the point where the POST to the move endpoint is issued: snapshot the
current game, replay the move on a copy, abort (no POST) when the copy
cannot be built or the move fails, otherwise POST the UCI string
`move.from + move.to + (move.promotion || '')`. -/
def executeMove (loadPgn loadFen : String → Option ChessGame)
    (g : ChessGame) (activeGameId : Option Nat)
    (sourceSquare targetSquare : String) (promotion : Option String) :
    AttemptOutcome :=
  match activeGameId with
  | none => AttemptOutcome.blocked
  | some _ =>
    let prevState := getGameSnapshot g
    match createGameFromSnapshot loadPgn loadFen prevState with
    | none => AttemptOutcome.blocked
    | some tempGame =>
      let moveInput : MoveInput :=
        { fromSq := sourceSquare, toSq := targetSquare, promotion := promotion }
      match chessMove tempGame moveInput with
      | none => AttemptOutcome.blocked
      | some mv =>
        AttemptOutcome.posted (mv.fromSq ++ mv.toSq ++ mv.promotion.getD "") mv

/-- The function `attemptMove(sourceSquare, targetSquare)` from App.jsx: guard exits,
then filter the verbose legal-move list for the from/to pair; an empty
filter sets the "Illegal move" error and returns; a promotion candidate
opens the promotion dialog; otherwise `executeMove` runs. -/
def attemptMove (loadPgn loadFen : String → Option ChessGame)
    (g : ChessGame) (activeGameId : Option Nat) (isSubmittingMove : Bool)
    (sourceSquare targetSquare : String) : AttemptOutcome :=
  if activeGameId = none ∨ isSubmittingMove ∨ g.gameOver then
    AttemptOutcome.ignored
  else
    let candidates :=
      g.legal.filter (fun mv => mv.fromSq == sourceSquare && mv.toSq == targetSquare)
    if candidates.isEmpty then AttemptOutcome.illegal
    else if candidates.any (fun mv => mv.promotion.isSome) then
      AttemptOutcome.promo sourceSquare targetSquare
    else
      executeMove loadPgn loadFen g activeGameId sourceSquare targetSquare none

/-- Result of `makeMove(moveUci, prevState, gameId)` from App.jsx as it
affects the client game state: on a successful POST the state is hydrated
from the server reply; on a failed POST the state is rolled back to the
pre-move snapshot and a move error is recorded. -/
inductive MoveSubmitResult where
  | accepted (nextGame : Option ChessGame)
  | rejected (rollback : Option ChessGame) (moveError : String)
deriving DecidableEq, Repr

/-- The function `makeMove` from App.jsx.  The server reply is `Except (Option String)
Snapshot`: `Except.ok` carries the reply's PGN/FEN pair fed to
`hydrateFromServer`, `Except.error` carries `error.response?.data?.error`
(`none` when absent, in which case the message defaults to
"Error making move"). -/
def makeMove (loadPgn loadFen : String → Option ChessGame)
    (prevState : Snapshot) (response : Except (Option String) Snapshot) :
    MoveSubmitResult :=
  match response with
  | Except.ok gameData =>
    MoveSubmitResult.accepted (createGameFromServer loadPgn loadFen gameData)
  | Except.error err =>
    MoveSubmitResult.rejected
      (createGameFromSnapshot loadPgn loadFen prevState)
      (err.getD "Error making move")

/-!  Arena player configuration (App.jsx lines 144-212). -/

/-- JS numeric field of an arena player: the value of `Number(x)` on the
stored input, `none` standing for NaN (a non-numeric string). -/
abbrev JsNum := Option ℚ

/-- The expression `Number(v) || d`: the default replaces NaN and 0 (both falsy), any other
number passes through. -/
def jsNumOr (v : JsNum) (d : ℚ) : ℚ :=
  match v with
  | none => d
  | some x => if x = 0 then d else x

/-- The arena player state shape of `createArenaPlayer` in App.jsx.  The
three numeric fields hold `Number(value)` of the stored input string. -/
structure ArenaPlayer where
  provider : String
  model : String
  customModel : String
  policyName : String
  samples : JsNum
  maxAttempts : JsNum
  agreementThreshold : JsNum
  verifierProvider : String
  verifierModel : String
  fallbackProvider : String
  fallbackModel : String
deriving DecidableEq, Repr

/-- The function `createArenaPlayer()` from App.jsx. -/
def createArenaPlayer : ArenaPlayer :=
  { provider := "local"
    model := ""
    customModel := ""
    policyName := "baseline"
    samples := some 3
    maxAttempts := some 3
    agreementThreshold := some (67 / 100)
    verifierProvider := ""
    verifierModel := ""
    fallbackProvider := ""
    fallbackModel := "" }

/-- The providers map returned by the AI-options endpoint, reduced to the
part `normalizeArenaPlayer` reads: its `local` model allowlist. -/
structure ProvidersMap where
  local_ : List String
deriving DecidableEq, Repr

/-- The function `normalizeArenaPlayer(player, providersMap)` from App.jsx.  `providersMap`
is `Option`-valued for the `providersMap || {}` guard; a missing `local`
entry is the empty list. -/
def normalizeArenaPlayer (player : ArenaPlayer) (providersMap : Option ProvidersMap) :
    ArenaPlayer :=
  let localModels := (providersMap.map ProvidersMap.local_).getD []
  if localModels.length = 0 then
    { player with
      provider := ""
      model := ""
      verifierProvider := ""
      verifierModel := ""
      fallbackProvider := ""
      fallbackModel := "" }
  else
    let provider := "local"
    let model :=
      if localModels.contains player.model then player.model
      else (localModels.head?).getD ""
    let verifierModel :=
      if player.verifierModel ≠ "" && !localModels.contains player.verifierModel then
        (localModels.head?).getD ""
      else player.verifierModel
    let fallbackModel :=
      if player.fallbackModel ≠ "" && !localModels.contains player.fallbackModel then
        (localModels.head?).getD ""
      else player.fallbackModel
    { player with
      provider := provider
      model := model
      verifierProvider := if verifierModel ≠ "" then "local" else ""
      verifierModel := verifierModel
      fallbackProvider := if fallbackModel ≠ "" then "local" else ""
      fallbackModel := fallbackModel }

/-- The TTC policy configuration shape built by `buildTtcPolicyConfig`. -/
structure TtcPolicyConfig where
  name : String
  samples : ℚ
  max_attempts : ℚ
  agreement_threshold : ℚ
  verifier_provider : String
  verifier_model : String
  fallback_provider : String
  fallback_model : String
deriving DecidableEq, Repr

/-- The function `buildTtcPolicyConfig(player)` from App.jsx. -/
def buildTtcPolicyConfig (player : ArenaPlayer) : TtcPolicyConfig :=
  { name := player.policyName
    samples := jsNumOr player.samples 3
    max_attempts := jsNumOr player.maxAttempts 3
    agreement_threshold := jsNumOr player.agreementThreshold (67 / 100)
    verifier_provider := if player.verifierModel ≠ "" then "local" else ""
    verifier_model := player.verifierModel
    fallback_provider := if player.fallbackModel ≠ "" then "local" else ""
    fallback_model := player.fallbackModel }

/-- The per-player payload shape built by `buildArenaPayloadPlayer`. -/
structure ArenaPayloadPlayer where
  provider : String
  model : String
  custom_model : String
  ttc_policy : TtcPolicyConfig
deriving DecidableEq, Repr

/-- The function `buildArenaPayloadPlayer(player)` from App.jsx. -/
def buildArenaPayloadPlayer (player : ArenaPlayer) : ArenaPayloadPlayer :=
  { provider := "local"
    model := player.model
    custom_model := player.customModel.trim
    ttc_policy := buildTtcPolicyConfig player }

/-- The run-submission payload built inside `handleRunArenaBatch`.
`num_games`/`max_plies` hold `Number(...)` of the form state (`none` = NaN);
`alternate_colors` is `Boolean(...)` of the checkbox state. -/
structure ArenaRunRequest where
  run_async : Bool
  num_games : JsNum
  max_plies : JsNum
  alternate_colors : Bool
  player_a : ArenaPayloadPlayer
  player_b : ArenaPayloadPlayer
deriving DecidableEq, Repr

/-- The payload construction of `handleRunArenaBatch` in App.jsx. -/
def buildArenaRunRequest (arenaNumGames arenaMaxPlies : JsNum)
    (arenaAlternateColors : Bool) (arenaPlayerA arenaPlayerB : ArenaPlayer) :
    ArenaRunRequest :=
  { run_async := true
    num_games := arenaNumGames
    max_plies := arenaMaxPlies
    alternate_colors := arenaAlternateColors
    player_a := buildArenaPayloadPlayer arenaPlayerA
    player_b := buildArenaPayloadPlayer arenaPlayerB }

/-!  Arena run polling (App.jsx lines 709-718 and 822-859).  The aggregate
result body is abstract (`α`): the client never inspects it before storing
it. -/

/-- The arena-run detail payload returned by the run endpoint, reduced to
the status/result/error triple the client stores. -/
structure ArenaRunPayload (α : Type) where
  status : String
  result : Option α
  error : Option String
deriving DecidableEq, Repr

/-- The client-side arena run state written by `loadArenaRunDetail`. -/
structure ArenaClientState (α : Type) where
  arenaRunStatus : String
  arenaRunResult : Option α
  arenaRunError : Option String
deriving DecidableEq, Repr

/-- The function `loadArenaRunDetail(runId, includeGames)` from App.jsx, as it affects
the client state: all three fields are written from the one response
payload (`payload.status || "unknown"`, `payload.result || null`,
`payload.error || null`). -/
def loadArenaRunDetail {α : Type} (payload : ArenaRunPayload α)
    (_s : ArenaClientState α) : ArenaClientState α :=
  { arenaRunStatus := if payload.status = "" then "unknown" else payload.status
    arenaRunResult := payload.result
    arenaRunError := payload.error }

/-- The polling loop's client state: the stored run status and whether the
poll interval is live.  The interval is live exactly while the status is
`queued` or `running`: the effect at App.jsx lines 822-859 clears it for
any other status, and the tick body clears it immediately on observing
`completed`/`failed`. -/
structure PollState where
  status : String
  pollActive : Bool
deriving DecidableEq, Repr

/-- One tick of the polling interval in App.jsx (lines 832-851) combined
with the re-run of the surrounding effect: if the interval is gone the
state is unchanged; otherwise the status is overwritten from the polled
payload and the interval survives only for `queued`/`running`. -/
def pollTick (payloadStatus : String) (s : PollState) : PollState :=
  if s.pollActive then
    let st := if payloadStatus = "" then "unknown" else payloadStatus
    { status := st
      pollActive := st = "queued" || st = "running" }
  else s

/-- The client state after `n` poll ticks against the server status trace
`trace` (the status reported at each tick). -/
def pollTrace (trace : ℕ → String) (init : PollState) : ℕ → PollState
  | 0 => init
  | n + 1 => pollTick (trace n) (pollTrace trace init n)

/-- A run status is terminal when it is `completed` or `failed`. -/
def terminalStatus (st : String) : Bool :=
  st = "completed" || st = "failed"

/-- Modelled from the spec: the Arena Run Scheduler's run-lifecycle state
machine, whose implementation is server code not present under src/.
"State machine: `queued → running → {completed, failed}` (terminal states
are absorbing — no run transitions out of `completed` or `failed`)." A
status may also persist unchanged between two observations. -/
def runStatusNext (s t : String) : Prop :=
  (s = "queued" ∧ (t = "queued" ∨ t = "running")) ∨
  (s = "running" ∧ (t = "running" ∨ t = "completed" ∨ t = "failed")) ∨
  (s = "completed" ∧ t = "completed") ∨
  (s = "failed" ∧ t = "failed")

instance (s t : String) : Decidable (runStatusNext s t) := by
  unfold runStatusNext; infer_instance

/-- Modelled from the spec: the Arena Run Scheduler's colour assignment,
server code not present under src/.  "When `alternate_colors` is set,
player A is White on even-indexed games (0-based) and Black on
odd-indexed games." Without the flag player A keeps White. -/
def playerAIsWhite (alternateColors : Bool) (gameIndex : ℕ) : Bool :=
  if alternateColors then gameIndex % 2 == 0 else true

/-- Modelled from the spec: the Live Step Controller's
`step(game_id, max_plies)`, server code not present under src/.  "Each call
synchronously advances up to `max_plies` plies using the same per-ply TTC
Policy evaluation as the batch driver"; per §4.4 the terminal check
precedes each move request, and "if the game is already terminal, `step`
is a no-op returning the current snapshot unchanged."  `policyMove` is the
per-ply advance through the active side's TTC policy. -/
def stepGame (policyMove : ChessGame → ChessGame) (g : ChessGame) :
    ℕ → ChessGame
  | 0 => g
  | n + 1 => if g.gameOver then g else stepGame policyMove (policyMove g) n

/-!  Opponent profile (App.jsx lines 216-259). -/

/-- The `black_player_config` fields read by `getOpponentProfile`. -/
structure BlackPlayerConfig where
  provider : String
  model : String
  custom_model : String
deriving DecidableEq, Repr

/-- The lookup `PROVIDER_LABELS[provider] || provider` with final default
"Unknown provider", from App.jsx. -/
def providerLabel (provider : String) : String :=
  if provider = "openai" then "OpenAI"
  else if provider = "anthropic" then "Anthropic"
  else if provider = "gemini" then "Gemini"
  else if provider = "local" then "Local (Ollama)"
  else if provider ≠ "" then provider
  else "Unknown provider"

/-- The profile record returned by `getOpponentProfile`. -/
structure OpponentProfile where
  title : String
  details : List String
  estimatedElo : Option String
deriving DecidableEq, Repr

/-- The function `getOpponentProfile(blackPlayerType, blackPlayerConfig)` from App.jsx. -/
def getOpponentProfile (blackPlayerType : String)
    (blackPlayerConfig : BlackPlayerConfig) : OpponentProfile :=
  if blackPlayerType = "human" then
    { title := "Human Opponent"
      details := ["Another player controls the black pieces."]
      estimatedElo := none }
  else if blackPlayerType = "stockfish" then
    { title := "Stockfish Engine"
      details :=
        ["Engine: Stockfish (UCI)",
         "Runtime: Local server binary",
         "Strength profile: ~0.5s search per move"]
      estimatedElo := some "~2500 (0.5s/move)" }
  else if blackPlayerType = "llm" then
    let provider := blackPlayerConfig.provider.toLower
    let effectiveModel :=
      if blackPlayerConfig.custom_model ≠ "" then blackPlayerConfig.custom_model
      else if blackPlayerConfig.model ≠ "" then blackPlayerConfig.model
      else "Unknown model"
    let runtimeDetail :=
      if provider = "local" then
        some "Runtime: local model server (no external API required)"
      else none
    { title := "LLM Opponent"
      details :=
        ["Provider: " ++ providerLabel provider,
         "Model: " ++ effectiveModel] ++
        (match runtimeDetail with
         | some d => [d]
         | none => []) ++
        ["Move policy: constrained legal-move selection"]
      estimatedElo := some "Experimental / model-dependent" }
  else
    { title := if blackPlayerType ≠ "" then blackPlayerType else "Unknown Opponent"
      details := ["No additional details available."]
      estimatedElo := none }

/-!  Concrete instances used by the witness and counterexample theorems. -/

/-- Shared concrete chess.js instances for the witnesses: a start-like game
with a single legal move e2-e4, and FEN/PGN loaders realising the
round-trip contract on it. -/
def mvE2E4 : VerboseMove :=
  { fromSq := "e2", toSq := "e4", promotion := none, san := "e4" }

def gameStart : ChessGame :=
  { pgn := "", fen := "start-fen", legal := [mvE2E4], gameOver := false }

def loadPgnW : String → Option ChessGame := fun _ => none

def loadFenW : String → Option ChessGame :=
  fun s => if s = "start-fen" then some gameStart else none

def badSamplesPlayer : ArenaPlayer :=
  { createArenaPlayer with samples := some (-5) }

def staleVerifierPlayer : ArenaPlayer :=
  { createArenaPlayer with policyName := "baseline", verifierModel := "llama3" }

def verifierPlayerW : ArenaPlayer :=
  { createArenaPlayer with policyName := "verifier", verifierModel := "llama3" }

/-- A three-observation server trace queued, running, completed, then
absorbed, for the C5 witness. -/
def traceW : ℕ → String
  | 0 => "queued"
  | 1 => "running"
  | _ + 2 => "completed"

def initPollW : PollState := { status := "queued", pollActive := true }

def finishedGameW : ChessGame :=
  { pgn := "1. f3 e5 2. g4 Qh4#", fen := "mate-fen", legal := [], gameOver := true }

def llmConfigW : BlackPlayerConfig :=
  { provider := "local", model := "llama3", custom_model := "custom-7b" }

/-!  Theorems. -/

/-- C1.  A move reaches the POST to the server's move endpoint only when it
is a member of the current position's verbose legal-move list: whatever
`attemptMove` posts is in `g.legal`; when no legal move matches the from/to
pair (and the guards pass) `attemptMove` returns the "Illegal move" error
outcome and issues no network call; and `executeMove` aborts before
POSTing whenever replaying the move on the snapshot copy fails.  The
hypothesis is the chess.js round-trip contract: reloading a game's own
PGN/FEN snapshot reproduces the game. -/
theorem attemptMove_posts_only_legal_moves
    (loadPgn loadFen : String → Option ChessGame) (g : ChessGame)
    (gid : Option Nat) (sub : Bool) (src tgt : String)
    (hround : createGameFromSnapshot loadPgn loadFen (getGameSnapshot g) = some g) :
    (∀ uci mv,
        attemptMove loadPgn loadFen g gid sub src tgt = AttemptOutcome.posted uci mv →
        mv ∈ g.legal)
    ∧ (gid ≠ none → sub = false → g.gameOver = false →
        g.legal.filter (fun mv => mv.fromSq == src && mv.toSq == tgt) = [] →
        attemptMove loadPgn loadFen g gid sub src tgt = AttemptOutcome.illegal)
    ∧ (∀ (promotion : Option String) uci mv,
        chessMove g { fromSq := src, toSq := tgt, promotion := promotion } = none →
        executeMove loadPgn loadFen g gid src tgt promotion ≠
          AttemptOutcome.posted uci mv) := by
  have hexec : ∀ (promotion : Option String) uci mv,
      executeMove loadPgn loadFen g gid src tgt promotion =
        AttemptOutcome.posted uci mv →
      chessMove g { fromSq := src, toSq := tgt, promotion := promotion } = some mv := by
    intro promotion uci mv h
    cases gid with
    | none => simp [executeMove] at h
    | some n =>
      simp only [executeMove, getGameSnapshot] at h
      rw [show (⟨g.pgn, g.fen⟩ : Snapshot) = getGameSnapshot g from rfl, hround] at h
      dsimp only at h
      cases hcm : chessMove g { fromSq := src, toSq := tgt, promotion := promotion } with
      | none => rw [hcm] at h; simp at h
      | some mv' =>
        rw [hcm] at h
        simp only [AttemptOutcome.posted.injEq] at h
        rw [← h.2]
  refine ⟨?_, ?_, ?_⟩
  · intro uci mv h
    simp only [attemptMove] at h
    split at h
    · simp at h
    · split at h
      · simp at h
      · split at h
        · simp at h
        · exact List.mem_of_find?_eq_some (hexec none uci mv h)
  · intro hgid hsub hover hfilter
    simp only [attemptMove, hfilter]
    rw [if_neg (by simp [hgid, hsub, hover])]
    simp
  · intro promotion uci mv hnone h
    have := hexec promotion uci mv h
    rw [hnone] at this
    exact Option.noConfusion this

theorem attemptMove_posts_only_legal_moves_witness :
    mvE2E4 ∈ gameStart.legal ∧
    attemptMove loadPgnW loadFenW gameStart (some 1) false "a1" "a5" =
      AttemptOutcome.illegal :=
  ⟨(attemptMove_posts_only_legal_moves loadPgnW loadFenW gameStart (some 1) false
      "e2" "e4" (by decide)).1 "e2e4" mvE2E4 (by decide),
   (attemptMove_posts_only_legal_moves loadPgnW loadFenW gameStart (some 1) false
      "a1" "a5" (by decide)).2.1 (by decide) rfl rfl (by decide)⟩

/-- C2.  A status poll through `loadArenaRunDetail` writes the whole
status/result/error triple from the one response payload — the resulting
client state does not depend on the previous state — so under the server
contract that a `completed` payload carries a result (spec §5: "a poller
observing `status == completed` always observes a non-null `result` in the
same read"; the scheduler itself is server code not under src/), a reader
never observes `completed` together with an empty result. -/
theorem loadArenaRunDetail_completed_has_result {α : Type}
    (payload : ArenaRunPayload α) (s s' : ArenaClientState α)
    (hserver : payload.status = "completed" → payload.result.isSome) :
    ((loadArenaRunDetail payload s).arenaRunStatus = "completed" →
      (loadArenaRunDetail payload s).arenaRunResult ≠ none)
    ∧ loadArenaRunDetail payload s = loadArenaRunDetail payload s' := by
  constructor
  · intro hst
    simp only [loadArenaRunDetail] at hst ⊢
    split at hst
    · exact absurd hst (by decide)
    · have := hserver hst
      simp only [Option.isSome_iff_ne_none] at this
      exact this
  · rfl

theorem loadArenaRunDetail_completed_has_result_witness :
    (loadArenaRunDetail
        ({ status := "completed", result := some 7, error := none } : ArenaRunPayload ℕ)
        { arenaRunStatus := "idle", arenaRunResult := none, arenaRunError := none }
      ).arenaRunResult ≠ none :=
  (loadArenaRunDetail_completed_has_result
      ({ status := "completed", result := some 7, error := none } : ArenaRunPayload ℕ)
      { arenaRunStatus := "idle", arenaRunResult := none, arenaRunError := none }
      { arenaRunStatus := "idle", arenaRunResult := none, arenaRunError := none }
      (fun _ => rfl)).1 rfl

/-- C3 counterexample.  The claim `samples ≥ 1` fails: `Number(x) || 3`
only replaces NaN and 0, so a stored input of "-5" (the number -5) passes
straight through and the built configuration has `samples = -5 < 1` —
`buildTtcPolicyConfig` does not clamp. -/

theorem buildTtcPolicyConfig_no_clamp_counterexample :
    (buildTtcPolicyConfig badSamplesPlayer).samples = -5 ∧
    ¬ (1 ≤ (buildTtcPolicyConfig badSamplesPlayer).samples) := by
  constructor
  · rfl
  · intro h
    norm_num [buildTtcPolicyConfig, badSamplesPlayer, createArenaPlayer, jsNumOr] at h

/-- C3 amended.  `buildTtcPolicyConfig` substitutes the defaults 3, 3, 0.67
exactly when `Number()` of the stored value is NaN or 0 (the falsy cases of
`||`) and otherwise passes the stored number through unclamped; hence the
spec bounds `samples ≥ 1`, `max_attempts ≥ 1`, `0.5 ≤ agreement_threshold
≤ 1.0` hold provided each stored numeric input is NaN, zero, or already
within the corresponding bound. -/
theorem buildTtcPolicyConfig_bounds (player : ArenaPlayer)
    (hs : player.samples = none ∨ player.samples = some 0 ∨
      ∃ x, player.samples = some x ∧ 1 ≤ x)
    (hm : player.maxAttempts = none ∨ player.maxAttempts = some 0 ∨
      ∃ x, player.maxAttempts = some x ∧ 1 ≤ x)
    (ha : player.agreementThreshold = none ∨ player.agreementThreshold = some 0 ∨
      ∃ x, player.agreementThreshold = some x ∧ 1 / 2 ≤ x ∧ x ≤ 1) :
    (1 ≤ (buildTtcPolicyConfig player).samples)
    ∧ (1 ≤ (buildTtcPolicyConfig player).max_attempts)
    ∧ (1 / 2 ≤ (buildTtcPolicyConfig player).agreement_threshold
        ∧ (buildTtcPolicyConfig player).agreement_threshold ≤ 1)
    ∧ (player.samples = none ∨ player.samples = some 0 →
        (buildTtcPolicyConfig player).samples = 3)
    ∧ (player.maxAttempts = none ∨ player.maxAttempts = some 0 →
        (buildTtcPolicyConfig player).max_attempts = 3)
    ∧ (player.agreementThreshold = none ∨ player.agreementThreshold = some 0 →
        (buildTtcPolicyConfig player).agreement_threshold = 67 / 100) := by
  have hdef : ∀ (v : JsNum) (d : ℚ), v = none ∨ v = some 0 → jsNumOr v d = d := by
    intro v d hv
    rcases hv with hv | hv <;> simp [jsNumOr, hv]
  have hval : ∀ (v : JsNum) (d x : ℚ), v = some x → x ≠ 0 → jsNumOr v d = x := by
    intro v d x hv hx
    simp [jsNumOr, hv, hx]
  refine ⟨?_, ?_, ?_, ?_, ?_, ?_⟩
  · rcases hs with h | h | ⟨x, hx, h1⟩
    · rw [show (buildTtcPolicyConfig player).samples = jsNumOr player.samples 3 from rfl,
        hdef _ _ (Or.inl h)]; norm_num
    · rw [show (buildTtcPolicyConfig player).samples = jsNumOr player.samples 3 from rfl,
        hdef _ _ (Or.inr h)]; norm_num
    · rw [show (buildTtcPolicyConfig player).samples = jsNumOr player.samples 3 from rfl,
        hval _ _ x hx (by intro h0; rw [h0] at h1; norm_num at h1)]
      exact h1
  · rcases hm with h | h | ⟨x, hx, h1⟩
    · rw [show (buildTtcPolicyConfig player).max_attempts = jsNumOr player.maxAttempts 3
          from rfl, hdef _ _ (Or.inl h)]; norm_num
    · rw [show (buildTtcPolicyConfig player).max_attempts = jsNumOr player.maxAttempts 3
          from rfl, hdef _ _ (Or.inr h)]; norm_num
    · rw [show (buildTtcPolicyConfig player).max_attempts = jsNumOr player.maxAttempts 3
          from rfl, hval _ _ x hx (by intro h0; rw [h0] at h1; norm_num at h1)]
      exact h1
  · rcases ha with h | h | ⟨x, hx, h1, h2⟩
    · rw [show (buildTtcPolicyConfig player).agreement_threshold =
          jsNumOr player.agreementThreshold (67 / 100) from rfl, hdef _ _ (Or.inl h)]
      norm_num
    · rw [show (buildTtcPolicyConfig player).agreement_threshold =
          jsNumOr player.agreementThreshold (67 / 100) from rfl, hdef _ _ (Or.inr h)]
      norm_num
    · rw [show (buildTtcPolicyConfig player).agreement_threshold =
          jsNumOr player.agreementThreshold (67 / 100) from rfl,
        hval _ _ x hx (by intro h0; rw [h0] at h1; norm_num at h1)]
      exact ⟨h1, h2⟩
  · intro h
    exact hdef _ _ h
  · intro h
    exact hdef _ _ h
  · intro h
    exact hdef _ _ h

theorem buildTtcPolicyConfig_bounds_witness :
    1 ≤ (buildTtcPolicyConfig createArenaPlayer).samples ∧
    (1 / 2 ≤ (buildTtcPolicyConfig createArenaPlayer).agreement_threshold
      ∧ (buildTtcPolicyConfig createArenaPlayer).agreement_threshold ≤ 1) :=
  have h := buildTtcPolicyConfig_bounds createArenaPlayer
    (Or.inr (Or.inr ⟨3, rfl, by norm_num⟩))
    (Or.inr (Or.inr ⟨3, rfl, by norm_num⟩))
    (Or.inr (Or.inr ⟨67 / 100, rfl, by norm_num, by norm_num⟩))
  ⟨h.1, h.2.2.1⟩

/-- C4 counterexample.  `buildTtcPolicyConfig` copies `verifierModel` into
the payload regardless of the policy name, and nothing clears the field
when the policy selector moves away from "verifier" (state written by
`setArenaPlayerField` persists), so a player with `policyName = "baseline"`
and a stale `verifierModel` produces a payload violating the spec
invariant. -/

theorem buildArenaPayloadPlayer_invariant_counterexample :
    (buildArenaPayloadPlayer staleVerifierPlayer).ttc_policy.verifier_model ≠ ""
    ∧ (buildArenaPayloadPlayer staleVerifierPlayer).ttc_policy.name ≠ "verifier" := by
  decide

/-- C4 amended.  The payload's `verifier_model`/`fallback_model` are copied
verbatim from the player state independently of the policy name; the spec
invariant (`verifier_model` non-empty only when `name == verifier`,
`fallback_model` non-empty only when `name == uncertainty_fallback`) holds
exactly for those player states whose stored `verifierModel` is empty
whenever the policy is not "verifier" and whose stored `fallbackModel` is
empty whenever the policy is not "uncertainty_fallback". -/
theorem buildArenaPayloadPlayer_policy_model_invariant (player : ArenaPlayer)
    (hv : player.policyName ≠ "verifier" → player.verifierModel = "")
    (hf : player.policyName ≠ "uncertainty_fallback" → player.fallbackModel = "") :
    ((buildArenaPayloadPlayer player).ttc_policy.verifier_model ≠ "" →
      (buildArenaPayloadPlayer player).ttc_policy.name = "verifier")
    ∧ ((buildArenaPayloadPlayer player).ttc_policy.fallback_model ≠ "" →
      (buildArenaPayloadPlayer player).ttc_policy.name = "uncertainty_fallback")
    ∧ (buildArenaPayloadPlayer player).ttc_policy.verifier_model = player.verifierModel
    ∧ (buildArenaPayloadPlayer player).ttc_policy.fallback_model = player.fallbackModel := by
  refine ⟨?_, ?_, rfl, rfl⟩
  · intro hne
    by_contra hname
    exact hne (hv hname)
  · intro hne
    by_contra hname
    exact hne (hf hname)

theorem buildArenaPayloadPlayer_policy_model_invariant_witness :
    ((buildArenaPayloadPlayer verifierPlayerW).ttc_policy.verifier_model ≠ "" →
      (buildArenaPayloadPlayer verifierPlayerW).ttc_policy.name = "verifier")
    ∧ (buildArenaPayloadPlayer verifierPlayerW).ttc_policy.verifier_model = "llama3" :=
  have h := buildArenaPayloadPlayer_policy_model_invariant verifierPlayerW
    (fun hne => absurd rfl hne) (fun _ => rfl)
  ⟨h.1, h.2.2.1⟩

/-- The poll interval is live only while the stored status is `queued` or
`running`; `pollTick` preserves this invariant (the client effect clears
the interval for any other status). -/
theorem pollTrace_active_invariant (trace : ℕ → String) (init : PollState)
    (hinit : init.pollActive = true →
      init.status = "queued" ∨ init.status = "running") :
    ∀ n, (pollTrace trace init n).pollActive = true →
      (pollTrace trace init n).status = "queued" ∨
      (pollTrace trace init n).status = "running" := by
  intro n
  induction n with
  | zero => exact hinit
  | succ n ih =>
    simp only [pollTrace, pollTick]
    split
    · intro h
      simp only [Bool.or_eq_true, decide_eq_true_eq] at h
      exact h
    · exact ih

/-- Once the poll is inactive the client state is frozen. -/
theorem pollTrace_frozen (trace : ℕ → String) (init : PollState) (n : ℕ)
    (hinactive : (pollTrace trace init n).pollActive = false) :
    ∀ m, n ≤ m → pollTrace trace init m = pollTrace trace init n := by
  intro m hm
  induction m with
  | zero =>
    have : n = 0 := Nat.le_zero.mp hm
    rw [this]
  | succ m ih =>
    rcases Nat.lt_or_ge n (m + 1) with hlt | hge
    · have hnm : n ≤ m := Nat.lt_succ_iff.mp hlt
      have heq := ih hnm
      show pollTick (trace m) (pollTrace trace init m) = pollTrace trace init n
      rw [heq]
      simp [pollTick, hinactive]
    · have : n = m + 1 := Nat.le_antisymm hm hge
      rw [this]

/-- Under the spec's scheduler state machine a terminal status can only be
followed by itself. -/
theorem runStatusNext_terminal_eq (s t : String) (h : runStatusNext s t)
    (hterm : terminalStatus s = true) : t = s := by
  rcases h with ⟨h1, h2⟩ | ⟨h1, h2⟩ | ⟨h1, h2⟩ | ⟨h1, h2⟩ <;> subst h1 <;>
    first
      | exact absurd hterm (by decide)
      | (subst h2; rfl)

/-- C5.  The arena run status only moves along
queued → running → {completed, failed}, terminal statuses are absorbing,
and the client's polling loop stops at the first terminal observation:
under the scheduler state machine (`runStatusNext`, modelled from the spec
since the scheduler is server code not under src/), a terminal server
status persists forever; and once the client's stored status is terminal
the poll interval is gone and every later client state is identical. -/
theorem arenaRun_terminal_absorbing (trace : ℕ → String) (init : PollState) (n : ℕ)
    (hmachine : ∀ k, runStatusNext (trace k) (trace (k + 1)))
    (hinit : init.pollActive = true →
      init.status = "queued" ∨ init.status = "running")
    (hterm : terminalStatus (pollTrace trace init n).status = true) :
    (pollTrace trace init n).pollActive = false
    ∧ (∀ m, n ≤ m → pollTrace trace init m = pollTrace trace init n)
    ∧ (∀ k j, terminalStatus (trace k) = true → k ≤ j → trace j = trace k) := by
  have hstop : (pollTrace trace init n).pollActive = false := by
    by_contra hact
    have hact' : (pollTrace trace init n).pollActive = true := by
      cases h : (pollTrace trace init n).pollActive
      · exact absurd h hact
      · rfl
    rcases pollTrace_active_invariant trace init hinit n hact' with h | h <;>
      rw [h] at hterm <;> exact absurd hterm (by decide)
  refine ⟨hstop, pollTrace_frozen trace init n hstop, ?_⟩
  intro k j hk hkj
  induction j with
  | zero =>
    have : k = 0 := Nat.le_zero.mp hkj
    rw [this]
  | succ j ih =>
    rcases Nat.lt_or_ge k (j + 1) with hlt | hge
    · have hkj' : k ≤ j := Nat.lt_succ_iff.mp hlt
      have heq := ih hkj'
      have hterm' : terminalStatus (trace j) = true := by rw [heq]; exact hk
      have hstep := runStatusNext_terminal_eq (trace j) (trace (j + 1))
        (hmachine j) hterm'
      rw [hstep, heq]
    · have : k = j + 1 := Nat.le_antisymm hkj hge
      rw [this]

theorem arenaRun_terminal_absorbing_witness :
    (pollTrace traceW initPollW 3).pollActive = false
    ∧ pollTrace traceW initPollW 5 = pollTrace traceW initPollW 3
    ∧ traceW 9 = traceW 2 :=
  have h := arenaRun_terminal_absorbing traceW initPollW 3
    (fun k => by
      match k with
      | 0 => exact Or.inl ⟨rfl, Or.inr rfl⟩
      | 1 => exact Or.inr (Or.inl ⟨rfl, Or.inr (Or.inl rfl)⟩)
      | j + 2 => exact Or.inr (Or.inr (Or.inl ⟨rfl, rfl⟩)))
    (fun _ => Or.inl rfl)
    (by decide)
  ⟨h.1, h.2.1 5 (by norm_num), h.2.2 2 9 (by decide) (by norm_num)⟩

/-- C6.  With `alternate_colors` set, player A is White exactly on the
even-indexed (0-based) games — for `num_games = 4` White on games 0 and 2
and Black on games 1 and 3 — and the client submits the checkbox state
verbatim as the payload's `alternate_colors` flag.  The colour assignment
itself (`playerAIsWhite`) is modelled from the spec, the scheduler being
server code not under src/. -/
theorem alternate_colors_assignment :
    (∀ i : ℕ, playerAIsWhite true i = (i % 2 == 0))
    ∧ (List.range 4).map (playerAIsWhite true) = [true, false, true, false]
    ∧ (∀ (ng mp : JsNum) (b : Bool) (pa pb : ArenaPlayer),
        (buildArenaRunRequest ng mp b pa pb).alternate_colors = b) :=
  ⟨fun _ => rfl, by decide, fun _ _ _ _ _ => rfl⟩

/-- C7.  Invoking the Live Step Controller on a finished game is a no-op:
`stepGame` (modelled from the spec, the controller being server code not
under src/) checks the terminal flag before every move request, so on a
terminal game it returns the game object itself — no field changes — and
the returned snapshot equals the current snapshot. -/
theorem stepGame_terminal_noop (policyMove : ChessGame → ChessGame)
    (g : ChessGame) (maxPlies : ℕ) (hterm : g.gameOver = true) :
    stepGame policyMove g maxPlies = g
    ∧ getGameSnapshot (stepGame policyMove g maxPlies) = getGameSnapshot g := by
  have h : stepGame policyMove g maxPlies = g := by
    cases maxPlies with
    | zero => rfl
    | succ n => simp [stepGame, hterm]
  exact ⟨h, by rw [h]⟩

theorem stepGame_terminal_noop_witness :
    stepGame id finishedGameW 2 = finishedGameW :=
  (stepGame_terminal_noop id finishedGameW 2 rfl).1

/-- C8.  For an llm black player config, the model line of the opponent
profile (always the second detail, after the provider line) reports
`custom_model` when it is non-empty, otherwise `model`, otherwise
"Unknown model": the free-text custom model override takes precedence over
the selected model id. -/
theorem getOpponentProfile_effective_model (cfg : BlackPlayerConfig) :
    ((getOpponentProfile "llm" cfg).details[1]? =
        some ("Model: " ++
          (if cfg.custom_model ≠ "" then cfg.custom_model
           else if cfg.model ≠ "" then cfg.model
           else "Unknown model")))
    ∧ (cfg.custom_model ≠ "" →
        (getOpponentProfile "llm" cfg).details[1]? =
          some ("Model: " ++ cfg.custom_model))
    ∧ (cfg.custom_model = "" → cfg.model ≠ "" →
        (getOpponentProfile "llm" cfg).details[1]? =
          some ("Model: " ++ cfg.model))
    ∧ (cfg.custom_model = "" → cfg.model = "" →
        (getOpponentProfile "llm" cfg).details[1]? =
          some "Model: Unknown model") := by
  have hbase :
      (getOpponentProfile "llm" cfg).details[1]? =
        some ("Model: " ++
          (if cfg.custom_model ≠ "" then cfg.custom_model
           else if cfg.model ≠ "" then cfg.model
           else "Unknown model")) := by
    simp only [getOpponentProfile]
    norm_num
    rw [if_neg (by decide : ¬("llm" : String) = "human"),
      if_neg (by decide : ¬("llm" : String) = "stockfish")]
    simp [List.getElem?_cons_succ, List.getElem?_cons_zero]
  refine ⟨hbase, ?_, ?_, ?_⟩
  · intro h
    rw [hbase, if_pos h]
  · intro h1 h2
    rw [hbase, if_neg (by simp [h1]), if_pos h2]
  · intro h1 h2
    rw [hbase, if_neg (by simp [h1]), if_neg (by simp [h2])]
    decide

theorem getOpponentProfile_effective_model_witness :
    (getOpponentProfile "llm" llmConfigW).details[1]? = some "Model: custom-7b" :=
  (getOpponentProfile_effective_model llmConfigW).2.1 (by decide)

/-- C9.  When the server rejects a submitted move, `makeMove` rebuilds the
game from the pre-move snapshot and records a move error: under the
chess.js round-trip contract (reloading a game's own PGN/FEN snapshot
reproduces the game), the rolled-back board equals the board before the
optimistic move, and the recorded error is the server message (or "Error
making move" when the reply carries none). -/
theorem makeMove_rejected_restores_snapshot
    (loadPgn loadFen : String → Option ChessGame) (g : ChessGame)
    (err : Option String)
    (hround : createGameFromSnapshot loadPgn loadFen (getGameSnapshot g) = some g) :
    makeMove loadPgn loadFen (getGameSnapshot g) (Except.error err) =
      MoveSubmitResult.rejected (some g) (err.getD "Error making move") := by
  simp only [makeMove, hround]

theorem makeMove_rejected_restores_snapshot_witness :
    makeMove loadPgnW loadFenW (getGameSnapshot gameStart) (Except.error none) =
      MoveSubmitResult.rejected (some gameStart) "Error making move" :=
  makeMove_rejected_restores_snapshot loadPgnW loadFenW gameStart none (by decide)

/-- The first element of a list (chess.js `list[0] || ''` with a non-empty
list) is a member of the list. -/
theorem head_getD_mem (l : List String) (hne : l ≠ []) :
    (l.head?).getD "" ∈ l := by
  cases l with
  | nil => exact absurd rfl hne
  | cons a l => exact List.mem_cons_self a l

/-- C10.  `normalizeArenaPlayer` keeps `model`, `verifierModel` and
`fallbackModel` each either empty or inside the providers map's "local"
allowlist, sets `provider` to "local" exactly when that allowlist is
non-empty, and sets `verifierProvider`/`fallbackProvider` to "local"
exactly when the corresponding model field is non-empty. -/
theorem normalizeArenaPlayer_allowlist_invariant (player : ArenaPlayer)
    (providersMap : Option ProvidersMap) :
    ((normalizeArenaPlayer player providersMap).model = "" ∨
      (normalizeArenaPlayer player providersMap).model ∈
        (providersMap.map ProvidersMap.local_).getD [])
    ∧ ((normalizeArenaPlayer player providersMap).verifierModel = "" ∨
      (normalizeArenaPlayer player providersMap).verifierModel ∈
        (providersMap.map ProvidersMap.local_).getD [])
    ∧ ((normalizeArenaPlayer player providersMap).fallbackModel = "" ∨
      (normalizeArenaPlayer player providersMap).fallbackModel ∈
        (providersMap.map ProvidersMap.local_).getD [])
    ∧ ((normalizeArenaPlayer player providersMap).provider = "local" ↔
        (providersMap.map ProvidersMap.local_).getD [] ≠ [])
    ∧ ((normalizeArenaPlayer player providersMap).verifierProvider = "local" ↔
        (normalizeArenaPlayer player providersMap).verifierModel ≠ "")
    ∧ ((normalizeArenaPlayer player providersMap).fallbackProvider = "local" ↔
        (normalizeArenaPlayer player providersMap).fallbackModel ≠ "") := by
  unfold normalizeArenaPlayer
  set localModels := (providersMap.map ProvidersMap.local_).getD [] with hlm
  by_cases hlen : localModels.length = 0
  · have hnil : localModels = [] := List.length_eq_zero.mp hlen
    rw [if_pos hlen]
    refine ⟨Or.inl rfl, Or.inl rfl, Or.inl rfl, ?_, ?_, ?_⟩
    · exact ⟨fun h => absurd (show ("" : String) = "local" from h) (by decide),
        fun h => absurd hnil h⟩
    · exact ⟨fun h => absurd (show ("" : String) = "local" from h) (by decide),
        fun h => absurd rfl h⟩
    · exact ⟨fun h => absurd (show ("" : String) = "local" from h) (by decide),
        fun h => absurd rfl h⟩
  · have hnil : localModels ≠ [] := fun h => hlen (by rw [h]; rfl)
    have hmem : ∀ m : String,
        (if localModels.contains m then m else (localModels.head?).getD "") = "" ∨
        (if localModels.contains m then m else (localModels.head?).getD "") ∈
          localModels := by
      intro m
      by_cases hc : localModels.contains m
      · rw [if_pos hc]
        exact Or.inr (List.elem_iff.mp hc)
      · rw [if_neg hc]
        exact Or.inr (head_getD_mem localModels hnil)
    have hvmem : ∀ m : String,
        (if m ≠ "" && !localModels.contains m then (localModels.head?).getD "" else m)
            = "" ∨
        (if m ≠ "" && !localModels.contains m then (localModels.head?).getD "" else m)
            ∈ localModels := by
      intro m
      by_cases hc : (m ≠ "" && !localModels.contains m) = true
      · rw [if_pos hc]
        exact Or.inr (head_getD_mem localModels hnil)
      · rw [if_neg hc]
        by_cases hm : m = ""
        · exact Or.inl hm
        · right
          simp only [Bool.and_eq_true, Bool.not_eq_true', decide_eq_true_eq,
            not_and, ne_eq] at hc
          have hct : localModels.contains m = true := by
            cases h : localModels.contains m with
            | false => exact absurd h (hc hm)
            | true => rfl
          exact List.elem_iff.mp hct
    have hlocIff : ∀ v : String,
        ((if v ≠ "" then "local" else "") = "local" ↔ v ≠ "") := by
      intro v
      by_cases hv : v = ""
      · rw [if_neg (not_not_intro hv)]
        exact ⟨fun h => absurd h (by decide), fun h => absurd hv h⟩
      · rw [if_pos hv]
        exact ⟨fun _ => hv, fun _ => rfl⟩
    rw [if_neg hlen]
    exact ⟨hmem player.model, hvmem player.verifierModel, hvmem player.fallbackModel,
      ⟨fun _ => hnil, fun _ => rfl⟩,
      hlocIff _, hlocIff _⟩
